import Mathlib

/-!
Shallow embedding of the `bokeh_app` repository (files `core.py`, `linetab.py`,
`main.py`), centred on `LineTab.make_dataset`, `LineTab._initialize_tab` and
`LineTab.update` from `linetab.py`.

Modelling conventions:
* A dataframe row carries the x-axis value (`month` in `main.py`, an integer),
  the value of every segment column (a total function from column name to the
  categorical string value) and the value of every metric column (a total
  function from column name to an exact rational; pandas floats are embedded
  as `ℚ` so that the arithmetic mean is exact).
* Python `list(set(xs))` enumerates the distinct elements of `xs` in an order
  that is fixed within one process; it is embedded as `List.dedup`, one such
  deterministic enumeration.  No theorem below depends on which enumeration
  is chosen except through the palette colors, which the source also draws
  from that enumeration order.
* `pandas.groupby(x).mean()` sorts group keys ascending; embedded via
  `insertionSort` over the deduplicated keys.
* Exceptions (`IndexError` from `Category20_20[i]`, `ValueError` from
  `pd.concat([])`) are embedded as `Except` errors.
* Python object identity of the chart's `ColumnDataSource` is embedded as an
  explicit `objId` tag: `update` writes `self.source.data.update(...)`, which
  replaces the contents but keeps the object, i.e. keeps `objId`.
-/

namespace BokehDash

/-- One row of the input dataframe (`self.data` in `linetab.py`).  `x` is the
value of the x-axis column, `segv c` the value of segment column `c`, and
`metv m` the value of metric column `m`. -/
structure Row where
  x : Int
  segv : String → String
  metv : String → ℚ
deriving Inhabited

/-- A filter mapping, `segments_to_filter` in `make_dataset`: column name to
allowed-value list, iterated in insertion order like a Python dict. -/
abbrev Filters := List (String × List String)

/-- The filtering loop of `make_dataset` (lines 116-119 of `linetab.py`):
successive `.loc[df[col].isin(allowed)]` restrictions, one per filter entry. -/
def applyFilters (data : List Row) (filters : Filters) : List Row :=
  filters.foldl
    (fun acc p => acc.filter (fun r => decide (r.segv p.1 ∈ p.2))) data

/-- Embedding of Python `list(set(xs))`: one deterministic enumeration of the
distinct elements (per-process set iteration order is fixed in CPython). -/
def pySetList (xs : List String) : List String :=
  xs.dedup

/-- The bokeh `Category20_20` palette imported at line 9 of `linetab.py`:
a fixed list of exactly 20 hex colors. -/
def Category20_20 : List String :=
  ["#1f77b4", "#aec7e8", "#ff7f0e", "#ffbb78", "#2ca02c",
   "#98df8a", "#d62728", "#ff9896", "#9467bd", "#c5b0d5",
   "#8c564b", "#c49c94", "#e377c2", "#f7b6d2", "#7f7f7f",
   "#c7c7c7", "#bcbd22", "#dbdb8d", "#17becf", "#9edae5"]

/-- One row of the derived dataset built by `make_dataset`: x-axis value,
averaged metric (column renamed to `"metric"`), segment value (`"name"`)
and assigned color (`"color"`). -/
structure DerivedRow where
  x : Int
  metric : ℚ
  name : String
  color : String
deriving DecidableEq, Repr, Inhabited

/-- The Python exceptions `make_dataset` can raise: `IndexError` from
`Category20_20[i]` with `i ≥ 20`, and `ValueError` from `pd.concat([])`
when the list of per-segment dataframes is empty. -/
inductive MkErr where
  | paletteIndex
  | emptyConcat
deriving DecidableEq, Repr, Inhabited

/-- Strict lexicographic order on strings by character code point, the order
Python string comparison uses (and the order of Mathlib's `String` linear
order, see `nameLt_iff_lt` below), stated over the character lists so that
it evaluates by structural recursion. -/
def nameLt (a b : String) : Prop :=
  List.lt a.data b.data

instance : DecidableRel nameLt := fun a b =>
  List.hasDecidableLt a.data b.data

/-- The order used by `datasource.sort_values(["name", self.x_axis])`:
lexicographic on (segment name, x-axis value). -/
def derivedLE (a b : DerivedRow) : Prop :=
  nameLt a.name b.name ∨ (a.name = b.name ∧ a.x ≤ b.x)

instance : DecidableRel derivedLE := fun a b =>
  inferInstanceAs (Decidable (nameLt a.name b.name ∨ (a.name = b.name ∧ a.x ≤ b.x)))

/-- Sorted distinct x-axis values of a list of rows, as produced by
`groupby(self.x_axis)` (pandas sorts group keys ascending). -/
def groupKeys (rows : List Row) : List Int :=
  ((rows.map (fun r => r.x)).dedup).insertionSort (fun a b => a ≤ b)

/-- `segment_data[[metric, x_axis]].groupby(x_axis).mean().reset_index()`
(lines 128-129): for each distinct x value, the exact arithmetic mean of the
metric column over the rows with that x value. -/
def groupbyMean (rows : List Row) (metric : String) : List (Int × ℚ) :=
  (groupKeys rows).map (fun v =>
    let g := rows.filter (fun r => decide (r.x = v))
    (v, ((g.map (fun r => r.metv metric)).sum) / (g.length : ℚ)))

/-- The per-segment dataframe built in the loop body (lines 127-133): the
grouped means, with `name` set to the segment value and `color` to the
palette entry for the enumeration position. -/
def frameFor (segData : List Row) (metric sv c : String) : List DerivedRow :=
  (groupbyMean segData metric).map (fun p =>
    { x := p.1, metric := p.2, name := sv, color := c })

/-- The `for i, segment_value in enumerate(segment_values)` loop of
`make_dataset` (lines 125-133), carrying the enumeration index `i`;
`Category20_20[i]` raises `IndexError` once `i` reaches 20. -/
def buildFrames (fd : List Row) (segment metric : String) :
    List String → Nat → Except MkErr (List (List DerivedRow))
  | [], _ => .ok []
  | sv :: rest, i =>
    match Category20_20[i]? with
    | none => .error .paletteIndex
    | some c =>
      match buildFrames fd segment metric rest (i + 1) with
      | .error e => .error e
      | .ok frames =>
        .ok (frameFor (fd.filter (fun r => decide (r.segv segment = sv)))
              metric sv c :: frames)

/-- `LineTab.make_dataset` (lines 96-139 of `linetab.py`): filter, enumerate
the distinct values of the selected segment column, build one averaged frame
per segment value, concatenate (`pd.concat` raises on an empty list) and sort
by `["name", x_axis]`.  The returned row list is the content of the fresh
`ColumnDataSource`. -/
def makeDataset (data : List Row) (segment metric : String)
    (filters : Filters) : Except MkErr (List DerivedRow) :=
  match buildFrames (applyFilters data filters) segment metric
      (pySetList ((applyFilters data filters).map (fun r => r.segv segment)))
      0 with
  | .error e => .error e
  | .ok [] => .error .emptyConcat
  | .ok frames => .ok (frames.flatten.insertionSort derivedLE)

/-- Specification-side characterization of the filtering step: exactly the
source rows whose value in every filtered column lies in that column's
allowed-value set.  Compared against `applyFilters` (the code's fold). -/
def filterSpec (data : List Row) (filters : Filters) : List Row :=
  data.filter (fun r => decide (∀ p ∈ filters, r.segv p.1 ∈ p.2))

/-- A bokeh `Select` widget: current value and available options. -/
structure SelectW where
  value : String
  options : List String
deriving Inhabited

/-- A bokeh `CheckboxGroup` widget: labels and the indices of the active
(checked) labels. -/
structure CheckboxGroup where
  labels : List String
  active : List Nat
deriving Inhabited

/-- A bokeh `ColumnDataSource`: Python object identity is made explicit as
`objId`; `data` is the stored table. -/
structure ColumnDataSource where
  objId : Nat
  data : List DerivedRow
deriving Inhabited

/-- The mutable state of a `LineTab` relevant to the claims: the source
dataframe, the configured column lists, the widgets and the chart's backing
`ColumnDataSource`. -/
structure TabState where
  data : List Row
  segments : List String
  metrics : List String
  segment_select : SelectW
  metric_select : SelectW
  segment_filters : List (String × CheckboxGroup)
  source : ColumnDataSource
deriving Inhabited

/-- Reading the current filter state from the checkbox widgets, as both
`_initialize_tab` (lines 78-83) and `update` (lines 211-216) do:
`[labels[i] for i in active]` for each segment column. -/
def readFilters (segments : List String)
    (sf : List (String × CheckboxGroup)) : Filters :=
  segments.map (fun s =>
    let cb := (sf.lookup s).getD { labels := [], active := [] }
    (s, cb.active.filterMap (fun i => cb.labels[i]?)))

/-- How `_initialize_tab` can fail: `kind` says which exception, and
`widgetsBuilt` counts the widget objects (`Select`s and `CheckboxGroup`s)
constructed before the exception was raised. -/
inductive InitErrKind where
  | indexError
  | datasetError (e : MkErr)
deriving DecidableEq, Repr

/-- Failure record for `_initialize_tab`. -/
structure InitError where
  widgetsBuilt : Nat
  kind : InitErrKind
deriving DecidableEq, Repr

/-- `LineTab.__init__` / `_initialize_tab` (lines 38-94 of `linetab.py`),
following the source's evaluation order: `self.segments[0]` is evaluated
before the segment `Select` is constructed (so an empty segment list fails
with no widget built), then the segment `Select` is built, then
`self.metrics[0]` is evaluated (so an empty metric list fails with exactly
one widget built), then the metric `Select`, then one `CheckboxGroup` per
segment column; finally `make_dataset` runs on the initial selections and
its exception, if any, propagates. -/
def initTab (data : List Row) (segments metrics : List String) :
    Except InitError TabState :=
  match segments with
  | [] => .error { widgetsBuilt := 0, kind := .indexError }
  | s0 :: _ =>
    let segSel : SelectW := { value := s0, options := segments }
    match metrics with
    | [] => .error { widgetsBuilt := 1, kind := .indexError }
    | m0 :: _ =>
      let metSel : SelectW := { value := m0, options := metrics }
      let cbs : List (String × CheckboxGroup) :=
        segments.map (fun s =>
          let avail := pySetList (data.map (fun r => r.segv s))
          (s, { labels := avail, active := List.range avail.length }))
      match makeDataset data s0 m0 (readFilters segments cbs) with
      | .error e =>
        .error { widgetsBuilt := 2 + segments.length, kind := .datasetError e }
      | .ok rows =>
        .ok { data := data, segments := segments, metrics := metrics,
              segment_select := segSel, metric_select := metSel,
              segment_filters := cbs,
              source := { objId := 0, data := rows } }

/-- `LineTab.update` (lines 203-221 of `linetab.py`).  The three arguments
mirror the bokeh callback signature `(attr, old, new)`; the body never reads
them.  It re-reads the current widget state, recomputes via `make_dataset`
(whose exception, if any, propagates before any mutation), and overwrites the
contents of the existing `ColumnDataSource` via `self.source.data.update`,
keeping its object identity. -/
def updateTab (st : TabState) (attr old new : String) :
    Except MkErr TabState :=
  match makeDataset st.data st.segment_select.value st.metric_select.value
      (readFilters st.segments st.segment_filters) with
  | .error e => .error e
  | .ok rows =>
    .ok { st with source := { objId := st.source.objId, data := rows } }

/-! Concrete fixtures

The 4-row scenario from the specification: rows
`{x:1,seg:"A",m:10}, {x:1,seg:"B",m:20}, {x:2,seg:"A",m:30}, {x:2,seg:"B",m:40}`,
one segment column `"seg"`, one metric column `"m"`, plus a 21-segment-value
dataset exercising the palette bound. -/

/-- Fixture row (x=1, seg="A", m=10). -/
def rowA1 : Row := { x := 1, segv := fun _ => "A", metv := fun _ => 10 }

/-- Fixture row (x=1, seg="B", m=20). -/
def rowB1 : Row := { x := 1, segv := fun _ => "B", metv := fun _ => 20 }

/-- Fixture row (x=2, seg="A", m=30). -/
def rowA2 : Row := { x := 2, segv := fun _ => "A", metv := fun _ => 30 }

/-- Fixture row (x=2, seg="B", m=40). -/
def rowB2 : Row := { x := 2, segv := fun _ => "B", metv := fun _ => 40 }

/-- The 4-row fixture dataframe. -/
def fixtureData : List Row := [rowA1, rowB1, rowA2, rowB2]

/-- The all-inclusive filter selection for the fixture. -/
def fixtureFilters : Filters := [("seg", ["A", "B"])]

/-- The derived dataset `make_dataset` computes on the fixture. -/
def fixtureRows : List DerivedRow :=
  (makeDataset fixtureData "seg" "m" fixtureFilters).toOption.getD []

/-- The tab state after initialization on the fixture. -/
def fixtureInit : TabState :=
  (initTab fixtureData ["seg"] ["m"]).toOption.getD default

/-- The tab state after one `update` call on the initialized fixture tab. -/
def fixtureUpdated : TabState :=
  (updateTab fixtureInit "value" "oldv" "newv").toOption.getD default

/-- A dataframe whose segment column takes 21 distinct values
(`""`, `"a"`, `"aa"`, ...), exceeding the 20-entry palette. -/
def data21 : List Row :=
  (List.range 21).map (fun k =>
    { x := 0, segv := fun _ => String.mk (List.replicate k 'a'), metv := fun _ => 0 })

/-! Order facts about the sort relation -/

/-- `nameLt` agrees with the linear order on `String`. -/
theorem nameLt_iff_lt (a b : String) : nameLt a b ↔ a < b := by
  rw [String.lt_iff_toList_lt]
  exact List.lt_iff_lex_lt a.data b.data

instance : IsTotal DerivedRow derivedLE := by
  constructor
  intro a b
  rcases lt_trichotomy a.name b.name with h | h | h
  · exact Or.inl (Or.inl ((nameLt_iff_lt _ _).mpr h))
  · rcases le_total a.x b.x with hx | hx
    · exact Or.inl (Or.inr ⟨h, hx⟩)
    · exact Or.inr (Or.inr ⟨h.symm, hx⟩)
  · exact Or.inr (Or.inl ((nameLt_iff_lt _ _).mpr h))

instance : IsTrans DerivedRow derivedLE := by
  constructor
  intro a b c hab hbc
  rcases hab with hab | ⟨hab, hax⟩ <;> rcases hbc with hbc | ⟨hbc, hbx⟩
  · exact Or.inl ((nameLt_iff_lt _ _).mpr
      (lt_trans ((nameLt_iff_lt _ _).mp hab) ((nameLt_iff_lt _ _).mp hbc)))
  · refine Or.inl ((nameLt_iff_lt _ _).mpr ?_)
    rw [← hbc]
    exact (nameLt_iff_lt _ _).mp hab
  · refine Or.inl ((nameLt_iff_lt _ _).mpr ?_)
    rw [hab]
    exact (nameLt_iff_lt _ _).mp hbc
  · exact Or.inr ⟨hab.trans hbc, le_trans hax hbx⟩

/-! Success-shape helpers -/

/-- On success, the result of `makeDataset` is the sorted concatenation of the
per-segment frames built by the enumeration loop. -/
theorem makeDataset_ok_elim {data : List Row} {segment metric : String}
    {filters : Filters} {rows : List DerivedRow}
    (h : makeDataset data segment metric filters = .ok rows) :
    ∃ frames : List (List DerivedRow),
      buildFrames (applyFilters data filters) segment metric
          (pySetList ((applyFilters data filters).map (fun r => r.segv segment)))
          0 = .ok frames ∧
        rows = frames.flatten.insertionSort derivedLE := by
  unfold makeDataset at h
  split at h
  · cases h
  · cases h
  · rename_i frames heq
    cases h
    exact ⟨_, heq, rfl⟩

/-- On init success, the chart's backing data is a successful `makeDataset`
result (first segment, first metric, all filter values active). -/
theorem initTab_ok_elim {data : List Row} {segments metrics : List String}
    {st : TabState} (h : initTab data segments metrics = .ok st) :
    ∃ s0 m0 filters, makeDataset data s0 m0 filters = .ok st.source.data := by
  unfold initTab at h
  split at h
  · cases h
  · split at h
    · cases h
    · dsimp only at h
      split at h
      · cases h
      · rename_i rows heq
        cases h
        exact ⟨_, _, _, heq⟩

/-- On update success, the chart's backing data is the `makeDataset` result
for the current widget state, and nothing else of the state changed except
the source contents. -/
theorem updateTab_ok_elim {st : TabState} {a o n : String} {st' : TabState}
    (h : updateTab st a o n = .ok st') :
    ∃ rows, makeDataset st.data st.segment_select.value st.metric_select.value
        (readFilters st.segments st.segment_filters) = .ok rows ∧
      st' = { st with source := { objId := st.source.objId, data := rows } } := by
  unfold updateTab at h
  split at h
  · cases h
  · rename_i rows heq
    cases h
    exact ⟨rows, heq, rfl⟩

/-- Every successful `makeDataset` result is sorted by (name, x), because the
source ends with `sort_values(["name", self.x_axis])`. -/
theorem makeDataset_ok_sorted {data : List Row} {segment metric : String}
    {filters : Filters} {rows : List DerivedRow}
    (h : makeDataset data segment metric filters = .ok rows) :
    List.Sorted derivedLE rows := by
  obtain ⟨frames, _, rfl⟩ := makeDataset_ok_elim h
  exact List.sorted_insertionSort derivedLE _

/-! Claim theorems -/

/-- C4: after tab initialization and after every call to update, the rows of
the derived dataset backing the chart are sorted by the pair
(segment-value, x-axis-value), segment value first. -/
theorem chart_source_sorted (st : TabState)
    (h : (∃ data segments metrics, initTab data segments metrics = .ok st) ∨
         (∃ st0 a o n, updateTab st0 a o n = .ok st)) :
    List.Sorted derivedLE st.source.data := by
  rcases h with ⟨data, segments, metrics, h⟩ | ⟨st0, a, o, n, h⟩
  · obtain ⟨s0, m0, filters, hmk⟩ := initTab_ok_elim h
    exact makeDataset_ok_sorted hmk
  · obtain ⟨rows, hmk, rfl⟩ := updateTab_ok_elim h
    exact makeDataset_ok_sorted hmk

/-- C4 witness: the initialized fixture tab's backing data is sorted. -/
theorem chart_source_sorted_witness :
    List.Sorted derivedLE fixtureInit.source.data :=
  chart_source_sorted fixtureInit (Or.inl ⟨fixtureData, ["seg"], ["m"], rfl⟩)

/-- C5: `make_dataset` is deterministic.  In this embedding `make_dataset` is
a function of exactly (source data, segment, metric, filters) — translating
the body required no other state, and the Python `list(set(...))` enumeration
is fixed within a process — so two calls with identical arguments on an
unmutated source dataset return identical derived datasets row for row,
including the `name` and `color` columns. -/
theorem make_dataset_deterministic (data : List Row) (segment metric : String)
    (filters : Filters) :
    makeDataset data segment metric filters
      = makeDataset data segment metric filters := rfl

/-- C6: `update` never reads its `(attr, old, new)` arguments; it re-reads
the current widget state, so its result is identical for any two argument
triples from the same tab state. -/
theorem update_ignores_event_arguments (st : TabState)
    (a1 o1 n1 a2 o2 n2 : String) :
    updateTab st a1 o1 n1 = updateTab st a2 o2 n2 := rfl

/-- C7: `update` never replaces the identity of the chart's backing
`ColumnDataSource` (`objId` is unchanged); it only overwrites the contents of
its data mapping with the fresh `make_dataset` result. -/
theorem update_preserves_source_object (st : TabState) (a o n : String)
    (st' : TabState) (h : updateTab st a o n = .ok st') :
    st'.source.objId = st.source.objId ∧
      makeDataset st.data st.segment_select.value st.metric_select.value
          (readFilters st.segments st.segment_filters) = .ok st'.source.data := by
  obtain ⟨rows, hmk, rfl⟩ := updateTab_ok_elim h
  exact ⟨rfl, hmk⟩

/-- C7 witness: on the fixture, one `update` call keeps the source object and
stores the recomputed dataset in it. -/
theorem update_preserves_source_object_witness :
    fixtureUpdated.source.objId = fixtureInit.source.objId ∧
      makeDataset fixtureInit.data fixtureInit.segment_select.value
          fixtureInit.metric_select.value
          (readFilters fixtureInit.segments fixtureInit.segment_filters) =
        .ok fixtureUpdated.source.data :=
  update_preserves_source_object fixtureInit "value" "oldv" "newv"
    fixtureUpdated rfl

/-- C8: `update` is idempotent for a fixed widget state: a second call from
the state the first call produced succeeds and leaves the chart's backing
source (identity and contents) exactly as after the first call. -/
theorem update_idempotent (st st1 : TabState) (a o n a2 o2 n2 : String)
    (h : updateTab st a o n = .ok st1) :
    ∃ st2, updateTab st1 a2 o2 n2 = .ok st2 ∧ st2.source = st1.source := by
  obtain ⟨rows, hmk, rfl⟩ := updateTab_ok_elim h
  refine ⟨{ st with source := { objId := st.source.objId, data := rows } },
    ?_, rfl⟩
  unfold updateTab
  dsimp only
  rw [hmk]

/-- C8 witness: a second `update` on the updated fixture tab reproduces the
same backing source. -/
theorem update_idempotent_witness :
    ∃ st2, updateTab fixtureUpdated "value2" "o2" "n2" = .ok st2 ∧
      st2.source = fixtureUpdated.source :=
  update_idempotent fixtureInit fixtureUpdated "value" "oldv" "newv"
    "value2" "o2" "n2" rfl

/-- C9: the tab's source dataset is never mutated: `update` leaves `data`
(and the configured column lists) untouched.  `make_dataset` itself is
embedded as a pure function of an immutable `data` argument — the source
works on `self.data.copy()` and never writes back. -/
theorem update_preserves_input_data (st : TabState) (a o n : String)
    (st' : TabState) (h : updateTab st a o n = .ok st') :
    st'.data = st.data ∧ st'.segments = st.segments ∧
      st'.metrics = st.metrics := by
  obtain ⟨rows, hmk, rfl⟩ := updateTab_ok_elim h
  exact ⟨rfl, rfl, rfl⟩

/-- C9 witness: on the fixture, `update` leaves the source dataframe and the
column lists unchanged. -/
theorem update_preserves_input_data_witness :
    fixtureUpdated.data = fixtureInit.data ∧
      fixtureUpdated.segments = fixtureInit.segments ∧
      fixtureUpdated.metrics = fixtureInit.metrics :=
  update_preserves_input_data fixtureInit "value" "oldv" "newv"
    fixtureUpdated rfl

/-- C2 counterexample: filtering the fixture down to zero rows (empty
allowed-value set for `"seg"`) makes `make_dataset` raise — the per-segment
frame list is empty and `pd.concat([])` raises `ValueError` — instead of
returning a zero-row derived dataset. -/
theorem make_dataset_empty_filter_error_cex :
    makeDataset fixtureData "seg" "m" [("seg", [])]
      = .error MkErr.emptyConcat := rfl

/-- C2 amended: whenever filtering removes all rows (in particular when some
column's allowed-value set is empty), `make_dataset` raises the
`pd.concat`-of-nothing error rather than returning an empty derived
dataset. -/
theorem make_dataset_empty_filtered_raises (data : List Row)
    (segment metric : String) (filters : Filters)
    (h : applyFilters data filters = []) :
    makeDataset data segment metric filters = .error MkErr.emptyConcat := by
  unfold makeDataset
  rw [h]
  rfl

/-- C2 amended witness: on an empty source dataset every filter removes all
rows and `make_dataset` raises. -/
theorem make_dataset_empty_filtered_raises_witness :
    makeDataset [] "s" "m" [] = .error MkErr.emptyConcat :=
  make_dataset_empty_filtered_raises [] "s" "m" [] rfl

/-- C3 counterexample: with a nonempty segment list and an empty metric list,
initialization fails (`self.metrics[0]` raises `IndexError`) but only after
the segment-select widget has already been constructed — `widgetsBuilt = 1`,
not 0, so failure is not before any widget object is constructed. -/
theorem init_empty_metrics_after_widget_cex :
    initTab [] ["seg"] []
      = .error { widgetsBuilt := 1, kind := InitErrKind.indexError } := rfl

/-- C3 amended: if the segment list or the metric list is empty,
initialization fails with an index error; with an empty segment list it fails
before any widget is constructed, while with a nonempty segment list and an
empty metric list it fails after constructing exactly one widget (the
segment selector). -/
theorem init_empty_config_fails (data : List Row)
    (segments metrics : List String) (h : segments = [] ∨ metrics = []) :
    initTab data segments metrics =
      .error { widgetsBuilt := if segments = [] then 0 else 1,
               kind := InitErrKind.indexError } := by
  rcases h with h | h
  · subst h
    rfl
  · subst h
    cases segments with
    | nil => rfl
    | cons s ss =>
      rw [if_neg (List.cons_ne_nil s ss)]
      rfl

/-- C3 amended witness: an empty segment list fails with no widget built. -/
theorem init_empty_config_fails_witness :
    initTab [] [] ["m"]
      = .error { widgetsBuilt := 0, kind := InitErrKind.indexError } := by
  have h := init_empty_config_fails [] [] ["m"] (Or.inl rfl)
  simpa using h

/-- The palette really has 20 entries. -/
theorem category20_length : Category20_20.length = 20 := rfl

/-- The enumeration loop raises the palette `IndexError` as soon as the
enumeration position reaches 20. -/
theorem buildFrames_overflow (fd : List Row) (segment metric : String) :
    ∀ (svs : List String) (i : Nat), svs ≠ [] → 20 < i + svs.length →
      buildFrames fd segment metric svs i = .error MkErr.paletteIndex := by
  intro svs
  induction svs with
  | nil =>
    intro i hne _
    exact absurd rfl hne
  | cons sv rest ih =>
    intro i _ hlen
    simp only [List.length_cons] at hlen
    unfold buildFrames
    by_cases hi : 20 ≤ i
    · rw [List.getElem?_eq_none (category20_length.le.trans hi)]
    · have hrest : rest ≠ [] := by
        intro he
        subst he
        simp only [List.length_nil] at hlen
        omega
      rw [List.getElem?_eq_getElem
        (lt_of_lt_of_eq (by omega : i < 20) category20_length.symm)]
      rw [ih (i + 1) hrest (by omega)]

/-- C10: `make_dataset` colors each distinct segment value by indexing the
fixed 20-entry `Category20_20` palette with the enumeration position, so as
soon as the filtered data has more than 20 distinct values in the selected
segment column, `make_dataset` raises an out-of-range index error instead of
returning a derived dataset. -/
theorem make_dataset_palette_overflow (data : List Row)
    (segment metric : String) (filters : Filters)
    (h : 20 < (pySetList
        ((applyFilters data filters).map (fun r => r.segv segment))).length) :
    Category20_20.length = 20 ∧
      makeDataset data segment metric filters
        = .error MkErr.paletteIndex := by
  refine ⟨rfl, ?_⟩
  unfold makeDataset
  rw [buildFrames_overflow _ _ _ _ 0
    (List.length_pos.mp (Nat.lt_of_le_of_lt (Nat.zero_le 20) h)) (by omega)]

/-- C10 witness: 21 distinct segment values make `make_dataset` raise the
palette index error. -/
theorem make_dataset_palette_overflow_witness :
    Category20_20.length = 20 ∧
      makeDataset data21 "s" "m" [] = .error MkErr.paletteIndex :=
  make_dataset_palette_overflow data21 "s" "m" [] (by decide)

/-! The filtering fold equals the all-columns-membership filter -/

/-- `applyFilters` on an empty filter dict is the identity. -/
theorem applyFilters_nil (data : List Row) : applyFilters data [] = data := rfl

/-- One step of the filtering fold. -/
theorem applyFilters_cons (data : List Row) (p : String × List String)
    (ps : Filters) :
    applyFilters data (p :: ps)
      = applyFilters (data.filter (fun r => decide (r.segv p.1 ∈ p.2))) ps :=
  rfl

/-- The successive per-column `isin` restrictions keep exactly the rows whose
value in every filtered column is in that column's allowed set. -/
theorem applyFilters_eq_filterSpec (filters : Filters) :
    ∀ data : List Row, applyFilters data filters = filterSpec data filters := by
  induction filters with
  | nil =>
    intro data
    rw [applyFilters_nil]
    unfold filterSpec
    symm
    apply List.filter_eq_self.mpr
    intro a _
    simp
  | cons p ps ih =>
    intro data
    rw [applyFilters_cons, ih]
    unfold filterSpec
    rw [List.filter_filter]
    apply List.filter_congr
    intro r _
    rw [Bool.eq_iff_iff]
    simp only [Bool.and_eq_true, decide_eq_true_eq, List.forall_mem_cons]
    tauto

/-! Group keys -/

/-- The group keys are exactly the x values occurring in the rows. -/
theorem mem_groupKeys {rows : List Row} {v : Int} :
    v ∈ groupKeys rows ↔ v ∈ rows.map (fun r => r.x) := by
  unfold groupKeys
  rw [(List.perm_insertionSort _ _).mem_iff, List.mem_dedup]

/-- The group keys are distinct. -/
theorem nodup_groupKeys (rows : List Row) : (groupKeys rows).Nodup := by
  unfold groupKeys
  exact ((List.perm_insertionSort _ _).nodup_iff).mpr (List.nodup_dedup _)

/-- The distinct-segment-value enumeration has no duplicates. -/
theorem pySetList_nodup (xs : List String) : (pySetList xs).Nodup :=
  List.nodup_dedup xs

/-- Counting a value in a duplicate-free list gives 1 or 0 by membership. -/
theorem countP_eq_ite_of_nodup {v : Int} :
    ∀ {l : List Int}, l.Nodup →
      l.countP (fun k => decide (k = v)) = if v ∈ l then 1 else 0 := by
  intro l
  induction l with
  | nil =>
    intro _
    simp
  | cons a l ih =>
    intro hn
    rcases List.nodup_cons.mp hn with ⟨ha, hl⟩
    rw [List.countP_cons, ih hl]
    by_cases hv : a = v
    · subst hv
      simp [ha]
    · simp [hv, Ne.symm hv, List.mem_cons]

/-! Per-frame and whole-output row counts -/

/-- The per-segment frame, written as one `map` over the group keys. -/
theorem frameFor_eq_map (segData : List Row) (metric sv c : String) :
    frameFor segData metric sv c
      = (groupKeys segData).map (fun k =>
          ({ x := k,
             metric := ((segData.filter (fun r => decide (r.x = k))).map
                 (fun r => r.metv metric)).sum /
               ((segData.filter (fun r => decide (r.x = k))).length : ℚ),
             name := sv, color := c } : DerivedRow)) := by
  unfold frameFor groupbyMean
  rw [List.map_map]
  rfl

/-- Counting rows with a given (name, x) in a frame-shaped map over
duplicate-free keys. -/
theorem countP_map_mkrow (sv c s : String) (v : Int) (f : Int → ℚ) :
    ∀ keys : List Int, keys.Nodup →
      (keys.map (fun k =>
          ({ x := k, metric := f k, name := sv, color := c } :
            DerivedRow))).countP
          (fun r => decide (r.name = s ∧ r.x = v))
        = if s = sv ∧ v ∈ keys then 1 else 0 := by
  intro keys
  induction keys with
  | nil =>
    intro _
    simp
  | cons k ks ih =>
    intro hn
    rcases List.nodup_cons.mp hn with ⟨hk, hks⟩
    rw [List.map_cons, List.countP_cons, ih hks]
    by_cases hs : s = sv
    · subst hs
      by_cases hv : k = v
      · subst hv
        simp [hk]
      · simp [hv, Ne.symm hv, List.mem_cons]
    · simp [hs, Ne.symm hs]

/-- In one per-segment frame there is exactly one row for the segment value
and each x value occurring in the segment's data, and no other row. -/
theorem countP_frameFor (segData : List Row) (metric sv c : String)
    (s : String) (v : Int) :
    (frameFor segData metric sv c).countP
        (fun r => decide (r.name = s ∧ r.x = v))
      = if s = sv ∧ v ∈ segData.map (fun r => r.x) then 1 else 0 := by
  rw [frameFor_eq_map,
    countP_map_mkrow sv c s v _ (groupKeys segData) (nodup_groupKeys segData)]
  simp [mem_groupKeys]

/-- Over a duplicate-free enumeration of segment values, the concatenated
frames contain exactly one row per (segment value, x value) pair present in
the filtered data, and none otherwise. -/
theorem buildFrames_flatten_countP (fd : List Row) (segment metric : String) :
    ∀ (svs : List String) (i : Nat) (frames : List (List DerivedRow)),
      svs.Nodup →
      buildFrames fd segment metric svs i = .ok frames →
      ∀ (s : String) (v : Int),
        frames.flatten.countP (fun r => decide (r.name = s ∧ r.x = v))
          = if s ∈ svs ∧
                v ∈ (fd.filter (fun r => decide (r.segv segment = s))).map
                      (fun r => r.x)
              then 1 else 0 := by
  intro svs
  induction svs with
  | nil =>
    intro i frames _ h s v
    rw [show buildFrames fd segment metric [] i = .ok [] from rfl] at h
    cases h
    simp
  | cons sv rest ih =>
    intro i frames hn h s v
    rcases List.nodup_cons.mp hn with ⟨hsv, hrest⟩
    unfold buildFrames at h
    split at h
    · cases h
    · rename_i c hc
      split at h
      · cases h
      · rename_i frames' heq
        cases h
        rw [List.flatten_cons, List.countP_append, countP_frameFor,
          ih (i + 1) frames' hrest heq s v]
        by_cases hs : s = sv
        · subst hs
          have htail :
              (if s ∈ rest ∧
                    v ∈ (fd.filter
                          (fun r => decide (r.segv segment = s))).map
                          (fun r => r.x)
                  then 1 else 0) = (0 : Nat) :=
            if_neg (fun hcon => hsv hcon.1)
          rw [htail]
          by_cases hmx : v ∈ (fd.filter
              (fun r => decide (r.segv segment = s))).map (fun r => r.x)
          · simp [hmx]
          · simp [hmx]
        · rw [if_neg (fun hcon => hs hcon.1)]
          simp only [Nat.zero_add, List.mem_cons]
          by_cases hmem : s ∈ rest ∧
              v ∈ (fd.filter (fun r => decide (r.segv segment = s))).map
                    (fun r => r.x)
          · rw [if_pos hmem, if_pos ⟨Or.inr hmem.1, hmem.2⟩]
          · rw [if_neg hmem, if_neg (fun hcon => hmem
              ⟨hcon.1.resolve_left hs, hcon.2⟩)]

/-- Every row of the concatenated frames comes from the frame of some
segment value. -/
theorem buildFrames_flatten_mem (fd : List Row) (segment metric : String) :
    ∀ (svs : List String) (i : Nat) (frames : List (List DerivedRow)),
      buildFrames fd segment metric svs i = .ok frames →
      ∀ r ∈ frames.flatten, ∃ sv c,
        r ∈ frameFor (fd.filter (fun q => decide (q.segv segment = sv)))
              metric sv c := by
  intro svs
  induction svs with
  | nil =>
    intro i frames h r hr
    rw [show buildFrames fd segment metric [] i = .ok [] from rfl] at h
    cases h
    simp at hr
  | cons sv rest ih =>
    intro i frames h r hr
    unfold buildFrames at h
    split at h
    · cases h
    · rename_i c hc
      split at h
      · cases h
      · rename_i frames' heq
        cases h
        rw [List.flatten_cons, List.mem_append] at hr
        rcases hr with hr | hr
        · exact ⟨sv, c, hr⟩
        · exact ih (i + 1) frames' heq r hr

/-- A row of a frame carries the frame's segment value as its name and the
exact arithmetic mean of the metric over the frame data at its x value. -/
theorem frameFor_metric {segData : List Row} {metric sv c : String}
    {r : DerivedRow} (hr : r ∈ frameFor segData metric sv c) :
    r.name = sv ∧
      r.metric =
        ((segData.filter (fun q => decide (q.x = r.x))).map
            (fun q => q.metv metric)).sum /
          ((segData.filter (fun q => decide (q.x = r.x))).length : ℚ) := by
  rw [frameFor_eq_map, List.mem_map] at hr
  obtain ⟨k, hk, rfl⟩ := hr
  exact ⟨rfl, rfl⟩

/-- Composing the segment-value restriction with the x-value restriction is
the single conjunctive restriction. -/
theorem filter_filter_and (fd : List Row) (segment sv : String) (k : Int) :
    (fd.filter (fun q => decide (q.segv segment = sv))).filter
        (fun q => decide (q.x = k))
      = fd.filter (fun q => decide (q.segv segment = sv ∧ q.x = k)) := by
  rw [List.filter_filter]
  apply List.filter_congr
  intro q _
  rw [Bool.eq_iff_iff]
  simp only [Bool.and_eq_true, decide_eq_true_eq]
  tauto

/-- C1: for every selection (segment column, metric column, filter mapping)
on which `make_dataset` returns, the derived dataset has exactly one row for
each (segment-value, x-axis-value) pair present in the filtered data — where
the filtered data is exactly the set of source rows whose value in every
filtered column belongs to that column's allowed-value set — and no row for
any other pair; and each row's metric value is the arithmetic mean of the
selected metric over the filtered rows with that row's segment value and
x value. -/
theorem make_dataset_rows_correct (data : List Row) (segment metric : String)
    (filters : Filters) (rows : List DerivedRow)
    (h : makeDataset data segment metric filters = .ok rows) :
    (∀ (s : String) (v : Int),
        rows.countP (fun r => decide (r.name = s ∧ r.x = v))
          = if ∃ q ∈ filterSpec data filters, q.segv segment = s ∧ q.x = v
              then 1 else 0) ∧
      (∀ r ∈ rows,
        r.metric =
          (((filterSpec data filters).filter
                (fun q => decide (q.segv segment = r.name ∧ q.x = r.x))).map
              (fun q => q.metv metric)).sum /
            (((filterSpec data filters).filter
                (fun q => decide (q.segv segment = r.name ∧ q.x = r.x))).length :
              ℚ)) := by
  obtain ⟨frames, hbf, rfl⟩ := makeDataset_ok_elim h
  constructor
  · intro s v
    rw [List.Perm.countP_eq _ (List.perm_insertionSort derivedLE _)]
    rw [buildFrames_flatten_countP (applyFilters data filters) segment metric
      (pySetList ((applyFilters data filters).map (fun r => r.segv segment)))
      0 frames (pySetList_nodup _) hbf s v]
    have hiff :
        (s ∈ pySetList
            ((applyFilters data filters).map (fun r => r.segv segment)) ∧
          v ∈ ((applyFilters data filters).filter
                (fun r => decide (r.segv segment = s))).map (fun r => r.x))
          ↔ (∃ q ∈ filterSpec data filters, q.segv segment = s ∧ q.x = v) := by
      rw [applyFilters_eq_filterSpec]
      constructor
      · rintro ⟨_, hv⟩
        rw [List.mem_map] at hv
        obtain ⟨q, hq, rfl⟩ := hv
        rw [List.mem_filter] at hq
        exact ⟨q, hq.1, by simpa using hq.2, rfl⟩
      · rintro ⟨q, hq, hseg, hx⟩
        constructor
        · unfold pySetList
          rw [List.mem_dedup, List.mem_map]
          exact ⟨q, hq, hseg⟩
        · rw [List.mem_map]
          exact ⟨q, List.mem_filter.mpr ⟨hq, by simp [hseg]⟩, hx⟩
    simp only [hiff]
  · intro r hr
    rw [List.Perm.mem_iff (List.perm_insertionSort derivedLE _)] at hr
    obtain ⟨sv, c, hrf⟩ := buildFrames_flatten_mem (applyFilters data filters)
      segment metric
      (pySetList ((applyFilters data filters).map (fun q => q.segv segment)))
      0 frames hbf r hr
    obtain ⟨hname, hmet⟩ := frameFor_metric hrf
    rw [← hname] at hmet
    rw [filter_filter_and, applyFilters_eq_filterSpec] at hmet
    exact hmet

/-- C1 witness: on the 4-row fixture there is exactly one derived row for
the pair (segment "A", x = 1). -/
theorem make_dataset_rows_correct_witness :
    fixtureRows.countP (fun r => decide (r.name = "A" ∧ r.x = 1)) = 1 := by
  have h := (make_dataset_rows_correct fixtureData "seg" "m" fixtureFilters
      fixtureRows rfl).1 "A" 1
  rw [h]
  decide

end BokehDash
